import Mathlib

/-!
Verification of the research-agent-system core
(src/research-agent-system/research_agent.py) against its specification.

The Python program is shallowly embedded: every mutable global object of the
program (the AgentLogger trace list, the InMemorySessionService session map,
the MemoryBank knowledge base and pattern list) becomes a field of a single
`SystemState`, and every method becomes a Lean function that threads this
state explicitly.  Python dicts are embedded as insertion-ordered association
lists (`List (String × _)`), which matches CPython dict semantics: assignment
to an existing key keeps its position, a new key is appended at the end.
Wall-clock reads (`time.time()`, `datetime.now()`) are embedded as reads of an
abstract monotone counter `clock`; each read ticks the counter.  Python floats
produced by `round(x, 2)` are embedded as rationals, with `round2` playing the
role of two-decimal rounding.
-/

/-- One entry of `AgentLogger.traces`.  The `details` dict of the program only
ever holds strings, ints, two-decimal floats, booleans and lists of strings,
so its values are embedded by the five-constructor `JVal`. -/
inductive JVal where
  | s : String → JVal
  | i : Nat → JVal
  | f : ℚ → JVal
  | b : Bool → JVal
  | arr : List String → JVal
deriving DecidableEq, Repr

/-- A trace entry appended by `AgentLogger.log`. -/
structure TraceEvent where
  timestamp : String
  agent : String
  action : String
  details : List (String × JVal)
deriving DecidableEq, Repr

/-- The `ResearchContext` dataclass. -/
structure ResearchContext where
  query : String
  sources : List String
  findings : List String
  synthesis : String
  timestamp : String
deriving DecidableEq, Repr

/-- One entry of a `MemoryBank.knowledge_base` topic list
(the dict \x7b"insight": ..., "timestamp": ...\x7d the program appends). -/
structure Insight where
  insight : String
  timestamp : String
deriving DecidableEq, Repr

/-- The combined mutable state of the program:
`traces` = `AgentLogger.traces`;
`sessions`, `current_session_id` = the `InMemorySessionService` fields;
`knowledge_base`, `research_patterns` = the `MemoryBank` fields;
`clock` = the abstract time source behind `time.time()` / `datetime.now()`. -/
structure SystemState where
  traces : List TraceEvent
  sessions : List (String × List ResearchContext)
  current_session_id : Option String
  knowledge_base : List (String × List Insight)
  research_patterns : List String
  clock : Nat
deriving DecidableEq, Repr

/-- The empty starting state (fresh `ResearchAgentSystem`). -/
def initialState : SystemState :=
  { traces := [], sessions := [], current_session_id := none,
    knowledge_base := [], research_patterns := [], clock := 0 }

/-- Ordered-dict lookup (`d.get(k)` / `k in d`). -/
def lookupAssoc (k : String) : List (String × α) → Option α
  | [] => none
  | (k1, v) :: rest => if k1 = k then some v else lookupAssoc k rest

/-- Ordered-dict assignment `d[k] = v`: replace in place when the key exists,
append at the end otherwise (CPython insertion-order semantics). -/
def setAssoc (k : String) (v : α) : List (String × α) → List (String × α)
  | [] => [(k, v)]
  | (k1, v1) :: rest => if k1 = k then (k, v) :: rest else (k1, v1) :: setAssoc k v rest

/-- Read the clock once (`time.time()` / `datetime.now()`); each read ticks. -/
def now (st : SystemState) : Nat × SystemState :=
  (st.clock, { st with clock := st.clock + 1 })

/-- `AgentLogger.log(agent_name, action, details)`: appends one trace entry
stamped with the current time. -/
def logEvent (agent action : String) (details : List (String × JVal))
    (st : SystemState) : SystemState :=
  let (t, st1) := now st
  { st1 with traces := st1.traces ++ [⟨toString t, agent, action, details⟩] }

/-- `InMemorySessionService.create_session`: unconditionally resets the
session's context list to empty, records it as current, returns the id. -/
def create_session (session_id : String) (st : SystemState) :
    String × SystemState :=
  (session_id,
   { st with sessions := setAssoc session_id [] st.sessions,
             current_session_id := some session_id })

/-- `InMemorySessionService.get_session_history`: `sessions.get(id, [])`. -/
def get_session_history (session_id : String) (st : SystemState) :
    List ResearchContext :=
  (lookupAssoc session_id st.sessions).getD []

/-- `InMemorySessionService.add_to_session`: create-if-missing, then append. -/
def add_to_session (session_id : String) (context : ResearchContext)
    (st : SystemState) : SystemState :=
  let st1 := if (lookupAssoc session_id st.sessions).isSome then st
             else (create_session session_id st).2
  { st1 with sessions :=
      (setAssoc session_id
        ((lookupAssoc session_id st1.sessions).getD [] ++ [context])
        st1.sessions) }

/-- The loop body of `get_context_summary`: one numbered line per context,
index starting at the given value (Python `enumerate(..., 1)`). -/
def summaryLines : Nat → List ResearchContext → String
  | _, [] => ""
  | i, c :: rest =>
      toString i ++ ". " ++ c.query ++ ": " ++ c.synthesis.take 100 ++ "...\n"
        ++ summaryLines (i + 1) rest

/-- `InMemorySessionService.get_context_summary`: sentinel when the history is
empty, otherwise a count header plus one line per context of the last three
(`history[-3:]` = drop all but the last three). -/
def get_context_summary (session_id : String) (st : SystemState) : String :=
  let history := get_session_history session_id st
  if history = [] then "No previous research in this session."
  else
    "Previous research in this session (" ++ toString history.length
      ++ " queries):\n"
      ++ summaryLines 1 (history.drop (history.length - 3))

/-- `MemoryBank.store_insight`: append a timestamped insight under the topic,
creating the topic entry if absent. -/
def store_insight (topic insight : String) (st : SystemState) : SystemState :=
  let (t, st1) := now st
  let cur := (lookupAssoc topic st1.knowledge_base).getD []
  { st1 with knowledge_base :=
      setAssoc topic (cur ++ [⟨insight, toString t⟩]) st1.knowledge_base }

/-- `MemoryBank.retrieve_insights`: the stored insight texts for a topic,
empty list when the topic is unknown. -/
def retrieve_insights (topic : String) (st : SystemState) : List String :=
  ((lookupAssoc topic st.knowledge_base).getD []).map Insight.insight

/-- `MemoryBank.add_research_pattern`. -/
def add_research_pattern (pattern : String) (st : SystemState) : SystemState :=
  { st with research_patterns := st.research_patterns ++ [pattern] }

/-- One result dict returned by `WebSearchTool.search`. -/
structure SearchResult where
  title : String
  url : String
  snippet : String
deriving DecidableEq, Repr

/-- The deterministic stub results `WebSearchTool.search` builds for a query:
`num_results` entries with templated title, url and snippet. -/
def search_results (query : String) (num_results : Nat) : List SearchResult :=
  (List.range num_results).map (fun i =>
    { title := "Research Result " ++ toString (i + 1) ++ " for: " ++ query,
      url := "https://example.com/result" ++ toString (i + 1),
      snippet := "This source provides information about " ++ query
        ++ ". Key findings include relevant data points and analysis." })

/-- `WebSearchTool.search`: logs initiation, builds the stub results, logs
completion, returns the results. -/
def WebSearchTool.search (query : String) (num_results : Nat)
    (st : SystemState) : List SearchResult × SystemState :=
  let st1 := logEvent "WebSearchTool" "search_initiated"
    [("query", .s query), ("num_results", .i num_results)] st
  let results := search_results query num_results
  let st2 := logEvent "WebSearchTool" "search_completed"
    [("results_count", .i results.length)] st1
  (results, st2)

/-- The numbered-line loop shared by `SynthesisTool.synthesize`
(Python `for i, finding in enumerate(findings[:3], 1)`). -/
def numberedLines : Nat → List String → String
  | _, [] => ""
  | i, x :: rest => toString i ++ ". " ++ x ++ "\n" ++ numberedLines (i + 1) rest

/-- The pure text `SynthesisTool.synthesize` produces: a source-count header
followed by the first three findings, numbered from 1. -/
def synthesis_text (findings : List String) : String :=
  "Based on " ++ toString findings.length ++ " sources, the key insights are:\n"
    ++ numberedLines 1 (findings.take 3)

/-- `SynthesisTool.synthesize`: logs the start, returns the synthesis text. -/
def SynthesisTool.synthesize (findings : List String) (st : SystemState) :
    String × SystemState :=
  let st1 := logEvent "SynthesisTool" "synthesis_started"
    [("findings_count", .i findings.length)] st
  (synthesis_text findings, st1)

/-- Python `round(x, 2)` on the rational embedding of floats. -/
def round2 (q : ℚ) : ℚ := ((round (q * 100) : ℤ) : ℚ) / 100

/-- `BaseAgent._start_task`: reads the start time, logs `task_started`, and
returns the start time for the matching `_end_task`. -/
def start_task (agent task : String) (st : SystemState) : Nat × SystemState :=
  let (t0, st1) := now st
  (t0, logEvent agent "task_started" [("task", .s task)] st1)

/-- `BaseAgent._end_task`: reads the end time and logs `task_completed` with
the rounded elapsed duration under the fixed timing key. -/
def end_task (agent task : String) (t0 : Nat) (st : SystemState) : SystemState :=
  let (t1, st1) := now st
  logEvent agent "task_completed"
    [("task", .s task),
     ("duration_seconds", .f (round2 ((t1 : ℚ) - (t0 : ℚ))))] st1

/-- `CoordinatorAgent._generate_search_queries`: the fixed three-way
expansion of the input query. -/
def generate_search_queries (query : String) : List String :=
  [query, query ++ " latest developments", query ++ " expert analysis"]

/-- The plan dict built by `CoordinatorAgent.plan_research`. -/
structure ResearchPlan where
  query : String
  search_queries : List String
  num_sources : Nat
  synthesis_required : Bool
  context : String
deriving DecidableEq, Repr

/-- The plan dict as logged detail values. -/
def planDetails (p : ResearchPlan) : List (String × JVal) :=
  [("query", .s p.query), ("search_queries", .arr p.search_queries),
   ("num_sources", .i p.num_sources), ("synthesis_required", .b p.synthesis_required),
   ("context", .s p.context)]

/-- `CoordinatorAgent.plan_research`: brackets its work in task events, pulls
the session context summary, and builds the fixed plan. -/
def plan_research (query session_id : String) (st : SystemState) :
    ResearchPlan × SystemState :=
  let (t0, st1) := start_task "CoordinatorAgent" "research_planning" st
  let context_summary := get_context_summary session_id st1
  let plan : ResearchPlan :=
    { query := query, search_queries := generate_search_queries query,
      num_sources := 5, synthesis_required := true, context := context_summary }
  let st2 := logEvent "CoordinatorAgent" "research_plan_created" (planDetails plan) st1
  let st3 := end_task "CoordinatorAgent" "research_planning" t0 st2
  (plan, st3)

/-- The research loop of `ResearcherAgent.conduct_research`: one provider call
per sub-query in order, each result appended as "title: snippet". -/
def gatherFindings : List String → Nat → SystemState → List String × SystemState
  | [], _, st => ([], st)
  | q :: qs, n, st =>
      let (results, st1) := WebSearchTool.search q n st
      let fs := results.map (fun r => r.title ++ ": " ++ r.snippet)
      let (rest, st2) := gatherFindings qs n st1
      (fs ++ rest, st2)

/-- `ResearcherAgent.conduct_research`: task bracketing around the gather
loop, plus a findings-count log. -/
def conduct_research (plan : ResearchPlan) (st : SystemState) :
    List String × SystemState :=
  let (t0, st1) := start_task "ResearcherAgent" "research_execution" st
  let (findings, st2) := gatherFindings plan.search_queries plan.num_sources st1
  let st3 := logEvent "ResearcherAgent" "research_completed"
    [("findings_count", .i findings.length)] st2
  let st4 := end_task "ResearcherAgent" "research_execution" t0 st3
  (findings, st4)

/-- `SynthesizerAgent.synthesize`: retrieves prior insights, builds the base
synthesis, appends the FIRST prior insight when any exists, stores the first
200 characters of the (post-annotation) synthesis, and returns it. -/
def synthesize (findings : List String) (query : String) (st : SystemState) :
    String × SystemState :=
  let (t0, st1) := start_task "SynthesizerAgent" "synthesis" st
  let past_insights := retrieve_insights query st1
  let (base, st2) := SynthesisTool.synthesize findings st1
  let synthesis :=
    match past_insights with
    | [] => base
    | p :: _ => base ++ "\nPrevious insights: " ++ p
  let st3 := store_insight query (synthesis.take 200) st2
  let st4 := logEvent "SynthesizerAgent" "synthesis_completed"
    [("output_length", .i synthesis.length)] st3
  let st5 := end_task "SynthesizerAgent" "synthesis" t0 st4
  (synthesis, st5)

/-- The result dict returned by `ResearchAgentSystem.research`. -/
structure ResearchResult where
  query : String
  synthesis : String
  sources_count : Nat
  session_id : String
deriving DecidableEq, Repr

/-- The result dict as logged detail values. -/
def resultDetails (r : ResearchResult) : List (String × JVal) :=
  [("query", .s r.query), ("synthesis", .s r.synthesis),
   ("sources_count", .i r.sources_count), ("session_id", .s r.session_id)]

/-- `ResearchAgentSystem.research`: the full sequential pipeline.  A missing
or empty session id (Python falsy check) is replaced by a time-derived id
whose session is created; then plan, gather, synthesize, one extra 3-result
source fetch, persist the context, and return the result. -/
def research (query : String) (session_id0 : Option String) (st : SystemState) :
    ResearchResult × SystemState :=
  let (session_id, st1) :=
    if session_id0.getD "" = "" then
      let (t, sta) := now st
      let sid := "session_" ++ toString t
      ((create_session sid sta).1, (create_session sid sta).2)
    else (session_id0.getD "", st)
  let st2 := logEvent "ResearchAgentSystem" "research_started"
    [("query", .s query), ("session_id", .s session_id)] st1
  let (plan, st3) := plan_research query session_id st2
  let (findings, st4) := conduct_research plan st3
  let (syn, st5) := synthesize findings query st4
  let (srcResults, st6) := WebSearchTool.search query 3 st5
  let (ts, st7) := now st6
  let context : ResearchContext :=
    { query := query, sources := srcResults.map SearchResult.url,
      findings := findings.take 5, synthesis := syn, timestamp := toString ts }
  let st8 := add_to_session session_id context st7
  let result : ResearchResult :=
    { query := query, synthesis := syn, sources_count := findings.length,
      session_id := session_id }
  let st9 := logEvent "ResearchAgentSystem" "research_completed"
    (resultDetails result) st8
  (result, st9)

/-- Renders a two-decimal rational the way Python prints the corresponding
float (`1.0`, `0.5`, `1.25`, `0.05`). -/
def renderFloat (q : ℚ) : String :=
  let sgn := if q < 0 then "-" else ""
  let a : ℚ := |q|
  let ip := (⌊a⌋).toNat
  let d2 := (⌊(a - (⌊a⌋ : ℚ)) * 100⌋).toNat
  let ds := if d2 = 0 then "0"
            else if d2 % 10 = 0 then toString (d2 / 10)
            else if d2 < 10 then "0" ++ toString d2
            else toString d2
  sgn ++ toString ip ++ "." ++ ds

/-- Renders one detail value the way Python `str()` renders it. -/
def renderJVal : JVal → String
  | .s v => "\x27" ++ v ++ "\x27"
  | .i n => toString n
  | .f q => renderFloat q
  | .b true => "True"
  | .b false => "False"
  | .arr vs =>
      "[" ++ String.intercalate ", " (vs.map (fun v => "\x27" ++ v ++ "\x27")) ++ "]"

/-- Python `str(details)` for a details dict. -/
def detailsStr (d : List (String × JVal)) : String :=
  "\x7b"
    ++ String.intercalate ", "
        (d.map (fun kv => "\x27" ++ kv.1 ++ "\x27: " ++ renderJVal kv.2))
    ++ "\x7d"

/-- Occurrence of one character list inside another. -/
def charsContain (needle : List Char) : List Char → Bool
  | [] => needle.isEmpty
  | c :: rest => List.isPrefixOf needle (c :: rest) || charsContain needle rest

/-- Python `needle in hay` on strings. -/
def strContains (hay needle : String) : Bool :=
  charsContain needle.toList hay.toList

/-- The evaluator's substring-correlated trace filter:
`[t for t in traces if session_id in str(t.get("details", \x7b\x7d))]`. -/
def sessionTraces (st : SystemState) (session_id : String) : List TraceEvent :=
  st.traces.filter (fun t => strContains (detailsStr t.details) session_id)

/-- A detail value read back as a number (durations are logged as floats). -/
def jvalToRat : JVal → ℚ
  | .i n => (n : ℚ)
  | .f q => q
  | _ => 0

/-- The evaluator's duration sum: over the session-correlated traces whose
details contain the fixed timing key, sum that key's value. -/
def rawTotalTime (st : SystemState) (session_id : String) : ℚ :=
  (((sessionTraces st session_id).filter
      (fun t => (lookupAssoc "duration_seconds" t.details).isSome)).map
    (fun t => jvalToRat ((lookupAssoc "duration_seconds" t.details).getD (.i 0)))).sum

/-- The metrics dict returned by `AgentEvaluator.evaluate_session`. -/
structure EvalMetrics where
  session_id : String
  total_queries : Nat
  total_tasks_completed : Nat
  total_time_seconds : ℚ
  avg_time_per_query : ℚ
  memory_entries : Nat
deriving DecidableEq, Repr

/-- The metrics dict as logged detail values. -/
def metricsDetails (m : EvalMetrics) : List (String × JVal) :=
  [("session_id", .s m.session_id), ("total_queries", .i m.total_queries),
   ("total_tasks_completed", .i m.total_tasks_completed),
   ("total_time_seconds", .f m.total_time_seconds),
   ("avg_time_per_query", .f m.avg_time_per_query),
   ("memory_entries", .i m.memory_entries)]

/-- `AgentEvaluator.evaluate_session`: filters traces by session-id substring,
counts completed actions, sums durations, divides by `max(history, 1)`, and
logs the metrics (which appends one trace event). -/
def evaluate_session (st : SystemState) (session_id : String) :
    EvalMetrics × SystemState :=
  let straces := sessionTraces st session_id
  let total_tasks := (straces.filter (fun t => t.action.endsWith "_completed")).length
  let total_time := rawTotalTime st session_id
  let history := get_session_history session_id st
  let metrics : EvalMetrics :=
    { session_id := session_id, total_queries := history.length,
      total_tasks_completed := total_tasks,
      total_time_seconds := round2 total_time,
      avg_time_per_query := round2 (total_time / (max history.length 1 : ℚ)),
      memory_entries := st.knowledge_base.length }
  let st1 := logEvent "AgentEvaluator" "evaluation_completed"
    (metricsDetails metrics) st
  (metrics, st1)

-- ==== basic association-list lemmas ====

theorem lookupAssoc_setAssoc_self (k : String) (v : α) :
    ∀ l : List (String × α), lookupAssoc k (setAssoc k v l) = some v := by
  intro l
  induction l with
  | nil => simp [lookupAssoc, setAssoc]
  | cons hd tl ih =>
      by_cases h : hd.1 = k
      · simp [lookupAssoc, setAssoc, h]
      · simp [lookupAssoc, setAssoc, h, ih]

theorem lookupAssoc_none_isSome_false {l : List (String × α)} {k : String}
    (h : lookupAssoc k l = none) : (lookupAssoc k l).isSome = false := by
  simp [h]

-- ==== frame facts used across claims ====

theorem logEvent_sessions (a b : String) (d : List (String × JVal))
    (st : SystemState) : (logEvent a b d st).sessions = st.sessions := rfl

theorem logEvent_knowledge (a b : String) (d : List (String × JVal))
    (st : SystemState) : (logEvent a b d st).knowledge_base = st.knowledge_base := rfl

theorem start_task_sessions (a b : String) (st : SystemState) :
    ((start_task a b st).2).sessions = st.sessions := rfl

theorem synthesize_fst (findings : List String) (query : String)
    (st : SystemState) :
    (synthesize findings query st).1 =
      (match retrieve_insights query st with
       | [] => synthesis_text findings
       | p :: _ => synthesis_text findings ++ "\nPrevious insights: " ++ p) := rfl

theorem get_session_history_logEvent (sid a b : String)
    (d : List (String × JVal)) (st : SystemState) :
    get_session_history sid (logEvent a b d st) = get_session_history sid st := rfl

theorem get_session_history_add_to_session (sid : String)
    (ctx : ResearchContext) (st : SystemState) :
    get_session_history sid (add_to_session sid ctx st) =
      get_session_history sid st ++ [ctx] := by
  unfold add_to_session get_session_history
  by_cases hl : (lookupAssoc sid st.sessions).isSome
  · simp only [hl, if_true]
    rcases Option.isSome_iff_exists.mp hl with ⟨v, hv⟩
    simp [hv, lookupAssoc_setAssoc_self]
  · have hn : lookupAssoc sid st.sessions = none :=
      Option.not_isSome_iff_eq_none.mp (by simpa using hl)
    simp [hl, hn, create_session, lookupAssoc_setAssoc_self]

-- ==== C1 ====

/-- The concrete context used in the C1 counterexample. -/
def ctxC1 : ResearchContext :=
  { query := "q", sources := [], findings := [], synthesis := "s",
    timestamp := "0" }

/-- A state in which session "s" already holds one context. -/
def stC1 : SystemState :=
  { initialState with sessions := [("s", [ctxC1])] }

/-- Claim C1, counterexample: calling `create_session` a second time with an
existing id is NOT a history-preserving no-op — it clears the session's
existing history (before: one context; after: empty). -/
theorem create_session_not_idempotent :
    get_session_history "s" (create_session "s" stC1).2 ≠
      get_session_history "s" stC1 := by
  decide

/-- Claim C1 (amended): `create_session` always returns the id, and always
resets the session's history to the empty list — so a second call with the
same id clears any existing history rather than leaving it intact. -/
theorem create_session_resets (session_id : String) (st : SystemState) :
    (create_session session_id st).1 = session_id ∧
      get_session_history session_id (create_session session_id st).2 = [] := by
  refine ⟨rfl, ?_⟩
  simp [get_session_history, create_session, lookupAssoc_setAssoc_self]

-- ==== C9 ====

/-- Claim C9: lookups of unknown keys are never errors: for a session id never
created, `get_session_history` returns the empty list, and for a topic never
stored, `retrieve_insights` returns the empty list.  Both are pure functions
of the state in this embedding (they return no new state), so they mutate
nothing and are total. -/
theorem unknown_lookups_empty (session_id topic : String) (st : SystemState)
    (hs : lookupAssoc session_id st.sessions = none)
    (ht : lookupAssoc topic st.knowledge_base = none) :
    get_session_history session_id st = [] ∧ retrieve_insights topic st = [] := by
  constructor
  · simp [get_session_history, hs]
  · simp [retrieve_insights, ht]

/-- Witness for C9 at the fresh state: no session, no topic exists there. -/
theorem unknown_lookups_empty_witness :
    get_session_history "ghost" initialState = [] ∧
      retrieve_insights "ghost" initialState = [] :=
  unknown_lookups_empty "ghost" "ghost" initialState rfl rfl

-- ==== C8 ====

/-- Claim C8: `plan_research` always produces exactly the three fixed
sub-queries (so at least one, including the original query), always requests
5 results per sub-query, and always sets the synthesis flag. -/
theorem plan_research_fixed (query session_id : String) (st : SystemState) :
    (plan_research query session_id st).1.search_queries =
        [query, query ++ " latest developments", query ++ " expert analysis"] ∧
      query ∈ (plan_research query session_id st).1.search_queries ∧
      1 ≤ (plan_research query session_id st).1.search_queries.length ∧
      (plan_research query session_id st).1.num_sources = 5 ∧
      (plan_research query session_id st).1.synthesis_required = true := by
  refine ⟨rfl, ?_, ?_, rfl, rfl⟩
  · show query ∈ generate_search_queries query
    simp [generate_search_queries]
  · show 1 ≤ (generate_search_queries query).length
    simp [generate_search_queries]

-- ==== C4 ====

/-- Claim C4: `SynthesizerAgent.synthesize` retrieves the prior insights of
the query topic from the PRE-state (so it never sees the insight it itself
stores), and: with no prior insight the result is exactly the base synthesis;
with at least one prior insight the result is the base synthesis followed by
exactly one annotation carrying the FIRST stored insight. -/
theorem synthesize_prior_insight (findings : List String) (query : String)
    (st : SystemState) :
    (retrieve_insights query st = [] →
        (synthesize findings query st).1 = synthesis_text findings) ∧
      (∀ p rest, retrieve_insights query st = p :: rest →
        (synthesize findings query st).1 =
          synthesis_text findings ++ "\nPrevious insights: " ++ p) := by
  constructor
  · intro h
    rw [synthesize_fst, h]
  · intro p rest h
    rw [synthesize_fst, h]

/-- The state used in the C4 witness: topic "q" already has two insights. -/
def stC4 : SystemState :=
  { initialState with
      knowledge_base := [("q", [⟨"first", "0"⟩, ⟨"second", "1"⟩])] }

/-- Witness for C4: with two prior insights stored, the returned synthesis is
the base text plus one annotation carrying the first insight only. -/
theorem synthesize_prior_insight_witness :
    retrieve_insights "q" stC4 = "first" :: ["second"] ∧
      (synthesize [] "q" stC4).1 =
        synthesis_text [] ++ "\nPrevious insights: " ++ "first" :=
  ⟨rfl, (synthesize_prior_insight [] "q" stC4).2 "first" ["second"] rfl⟩

-- ==== C10 ====

/-- Claim C10: the insight the synthesizer stores under the query topic is
the first 200 characters of the returned synthesis, i.e. the snapshot is
taken AFTER the prior-insight annotation is appended; in particular, when a
prior insight exists the stored snapshot is the 200-character prefix of
base-plus-annotation, not of the base alone. -/
theorem synthesize_stores_after_append (findings : List String)
    (query : String) (st : SystemState) :
    retrieve_insights query (synthesize findings query st).2 =
        retrieve_insights query st ++ [((synthesize findings query st).1).take 200] ∧
      (∀ p rest, retrieve_insights query st = p :: rest →
        ((synthesize findings query st).1).take 200 =
          (synthesis_text findings ++ "\nPrevious insights: " ++ p).take 200) := by
  constructor
  · show retrieve_insights query
        (store_insight query ((synthesize findings query st).1.take 200) _) = _
    unfold retrieve_insights store_insight
    simp [lookupAssoc_setAssoc_self]
    rfl
  · intro p rest h
    rw [synthesize_fst, h]

/-- The state used in the C10 witness: topic "q" has one stored insight and
the base synthesis is far shorter than 200 characters. -/
def stC10 : SystemState :=
  { initialState with knowledge_base := [("q", [⟨"old", "0"⟩])] }

set_option maxRecDepth 4096 in
/-- Witness for C10: the stored snapshot is the truncation of the
post-annotation synthesis, and (base shorter than 200 characters) it strictly
extends the base synthesis, so it includes part of the annotation that
references the earlier insight. -/
theorem synthesize_stores_after_append_witness :
    retrieve_insights "q" stC10 = "old" :: [] ∧
      ((synthesize [] "q" stC10).1).take 200 =
        (synthesis_text [] ++ "\nPrevious insights: " ++ "old").take 200 ∧
      ((synthesize [] "q" stC10).1).take 200 ≠ synthesis_text [] :=
  ⟨rfl,
   (synthesize_stores_after_append [] "q" stC10).2 "old" [] rfl,
   by decide⟩

-- ==== shared list lemmas (used by C2 and C6) ====

/-- The stub provider always returns exactly the requested result count. -/
theorem search_results_length (q : String) (n : Nat) :
    (search_results q n).length = n := by
  simp [search_results]

/-- The research loop's findings, independent of the threaded state: the
concatenation, in sub-query order, of each sub-query's formatted results. -/
theorem gatherFindings_fst (n : Nat) :
    ∀ (qs : List String) (st : SystemState),
      (gatherFindings qs n st).1 =
        qs.flatMap (fun q => (search_results q n).map
          (fun r => r.title ++ ": " ++ r.snippet)) := by
  intro qs
  induction qs with
  | nil => intro st; rfl
  | cons q rest ih =>
      intro st
      simp [gatherFindings, WebSearchTool.search, ih]

theorem bind_length_uniform {α : Type} (f : String → List α) (n : Nat)
    (hf : ∀ q, (f q).length = n) :
    ∀ qs : List String, (qs.flatMap f).length = qs.length * n := by
  intro qs
  induction qs with
  | nil => simp
  | cons q rest ih =>
      simp [hf, ih, Nat.succ_mul]
      omega

theorem bind_drop_take {α : Type} (f : String → List α) (n : Nat)
    (hf : ∀ q, (f q).length = n) :
    ∀ (qs : List String) (i : Nat) (hi : i < qs.length),
      ((qs.flatMap f).drop (i * n)).take n = f (qs.get ⟨i, hi⟩) := by
  intro qs
  induction qs with
  | nil => intro i hi; simp at hi
  | cons q rest ih =>
      intro i hi
      cases i with
      | zero =>
          simp [List.take_left' (hf q)]
      | succ i =>
          have hi2 : i < rest.length := by
            simpa [Nat.succ_lt_succ_iff] using hi
          have h1 : ((q :: rest).flatMap f).drop ((i + 1) * n) =
              (rest.flatMap f).drop (i * n) := by
            rw [List.flatMap_cons, Nat.succ_mul, Nat.add_comm (i * n) n,
              ← List.drop_drop, List.drop_left' (hf q)]
          rw [h1]
          simpa using ih i hi2

-- ==== C2 ====

/-- Verification-layer name for the state after the orchestrator's opening
`research_started` log, on the existing-session path of `research`. -/
def rStarted (query sid : String) (st : SystemState) : SystemState :=
  logEvent "ResearchAgentSystem" "research_started"
    [("query", JVal.s query), ("session_id", JVal.s sid)] st

/-- Pipeline stage 1 of `research` (existing-session path). -/
def rPlan (query sid : String) (st : SystemState) : ResearchPlan × SystemState :=
  plan_research query sid (rStarted query sid st)

/-- Pipeline stage 2 of `research` (existing-session path). -/
def rFindings (query sid : String) (st : SystemState) :
    List String × SystemState :=
  conduct_research (rPlan query sid st).1 (rPlan query sid st).2

/-- Pipeline stage 3 of `research` (existing-session path). -/
def rSynth (query sid : String) (st : SystemState) : String × SystemState :=
  synthesize (rFindings query sid st).1 query (rFindings query sid st).2

/-- The extra 3-result source fetch of `research` (existing-session path). -/
def rSources (query sid : String) (st : SystemState) :
    List SearchResult × SystemState :=
  WebSearchTool.search query 3 (rSynth query sid st).2

/-- The `ResearchContext` that `research` persists (existing-session path). -/
def rContext (query sid : String) (st : SystemState) : ResearchContext :=
  ⟨query, (rSources query sid st).1.map SearchResult.url,
   (rFindings query sid st).1.take 5, (rSynth query sid st).1,
   toString (now (rSources query sid st).2).1⟩

/-- The result dict `research` returns (existing-session path). -/
def rResult (query sid : String) (st : SystemState) : ResearchResult :=
  ⟨query, (rSynth query sid st).1, (rFindings query sid st).1.length, sid⟩

/-- The final state of `research` (existing-session path). -/
def rFinal (query sid : String) (st : SystemState) : SystemState :=
  logEvent "ResearchAgentSystem" "research_completed"
    (resultDetails (rResult query sid st))
    (add_to_session sid (rContext query sid st)
      (now (rSources query sid st).2).2)

set_option maxRecDepth 4096 in
/-- On a non-empty session id, `research` computes exactly the named pipeline
components. -/
theorem research_existing (query sid : String) (st : SystemState)
    (hne : ¬ sid = "") :
    research query (some sid) st = (rResult query sid st, rFinal query sid st) := by
  unfold research
  simp only [Option.getD_some]
  rw [if_neg hne]
  rfl

theorem end_task_sessions (a b : String) (t0 : Nat) (st : SystemState) :
    (end_task a b t0 st).sessions = st.sessions := rfl

theorem search_snd_sessions (q : String) (n : Nat) (st : SystemState) :
    ((WebSearchTool.search q n st).2).sessions = st.sessions := rfl

theorem synthesize_snd_sessions (f : List String) (q : String)
    (st : SystemState) : ((synthesize f q st).2).sessions = st.sessions := rfl

theorem plan_research_snd_sessions (q s : String) (st : SystemState) :
    ((plan_research q s st).2).sessions = st.sessions := rfl

theorem gatherFindings_snd_sessions (n : Nat) :
    ∀ (qs : List String) (st : SystemState),
      ((gatherFindings qs n st).2).sessions = st.sessions := by
  intro qs
  induction qs with
  | nil => intro st; rfl
  | cons q rest ih =>
      intro st
      have e : (gatherFindings (q :: rest) n st).2 =
          (gatherFindings rest n (WebSearchTool.search q n st).2).2 := rfl
      rw [e, ih, search_snd_sessions]

theorem conduct_research_snd_sessions (p : ResearchPlan) (st : SystemState) :
    ((conduct_research p st).2).sessions = st.sessions := by
  have e : (conduct_research p st).2 =
      end_task "ResearcherAgent" "research_execution"
        (start_task "ResearcherAgent" "research_execution" st).1
        (logEvent "ResearcherAgent" "research_completed"
          [("findings_count", JVal.i (gatherFindings p.search_queries
              p.num_sources
              (start_task "ResearcherAgent" "research_execution" st).2).1.length)]
          (gatherFindings p.search_queries p.num_sources
            (start_task "ResearcherAgent" "research_execution" st).2).2) := rfl
  rw [e, end_task_sessions, logEvent_sessions, gatherFindings_snd_sessions,
    start_task_sessions]

theorem now_snd_sessions (st : SystemState) :
    ((now st).2).sessions = st.sessions := rfl

theorem rSources_unfold (query sid : String) (st : SystemState) :
    rSources query sid st =
      WebSearchTool.search query 3 (rSynth query sid st).2 := rfl

theorem rSynth_unfold (query sid : String) (st : SystemState) :
    rSynth query sid st =
      synthesize (rFindings query sid st).1 query (rFindings query sid st).2 := rfl

theorem rFindings_unfold (query sid : String) (st : SystemState) :
    rFindings query sid st =
      conduct_research (rPlan query sid st).1 (rPlan query sid st).2 := rfl

theorem rPlan_unfold (query sid : String) (st : SystemState) :
    rPlan query sid st = plan_research query sid (rStarted query sid st) := rfl

/-- No stage of the pipeline before persistence touches the session store. -/
theorem research_pipeline_sessions (query sid : String) (st : SystemState) :
    ((now (rSources query sid st).2).2).sessions = st.sessions := by
  rw [now_snd_sessions, rSources_unfold, search_snd_sessions, rSynth_unfold,
    synthesize_snd_sessions, rFindings_unfold, conduct_research_snd_sessions,
    rPlan_unfold, plan_research_snd_sessions]
  exact logEvent_sessions _ _ _ st

theorem conduct_research_fst (p : ResearchPlan) (st : SystemState) :
    (conduct_research p st).1 =
      (gatherFindings p.search_queries p.num_sources
        (start_task "ResearcherAgent" "research_execution" st).2).1 := rfl

theorem rPlan_search_queries (query sid : String) (st : SystemState) :
    (rPlan query sid st).1.search_queries = generate_search_queries query := rfl

theorem rPlan_num_sources (query sid : String) (st : SystemState) :
    (rPlan query sid st).1.num_sources = 5 := rfl

/-- The researcher stage always produces 3 sub-queries times 5 results = 15
raw findings. -/
theorem rFindings_length (query sid : String) (st : SystemState) :
    (rFindings query sid st).1.length = 15 := by
  rw [rFindings_unfold, conduct_research_fst, rPlan_search_queries,
    rPlan_num_sources, gatherFindings_fst]
  rw [bind_length_uniform _ 5 (fun q => by simp [search_results_length])]
  simp [generate_search_queries]

/-- Claim C2: one call to `research` on an existing session id appends exactly
one `ResearchContext` to that session; the returned `sources_count` is the
total raw finding count (sub-queries times 5 results each, i.e. 15), not the
length of the truncated 5-entry persisted finding list nor the length of the
3-entry persisted source list. -/
theorem research_appends_one (query sid : String) (st : SystemState)
    (l : List ResearchContext) (hne : ¬ sid = "")
    (h : lookupAssoc sid st.sessions = some l) :
    ∃ ctx : ResearchContext,
      get_session_history sid (research query (some sid) st).2 = l ++ [ctx] ∧
      ctx.findings.length = 5 ∧
      ctx.sources.length = 3 ∧
      (research query (some sid) st).1.sources_count =
        (generate_search_queries query).length * 5 ∧
      (research query (some sid) st).1.sources_count = 15 := by
  have hist2 : get_session_history sid (now (rSources query sid st).2).2 = l := by
    unfold get_session_history
    rw [research_pipeline_sessions, h]
    rfl
  rw [research_existing query sid st hne]
  refine ⟨rContext query sid st, ?_, ?_, ?_, ?_, ?_⟩
  · show get_session_history sid (rFinal query sid st) = l ++ [rContext query sid st]
    unfold rFinal
    rw [get_session_history_logEvent, get_session_history_add_to_session, hist2]
  · show ((rFindings query sid st).1.take 5).length = 5
    rw [List.length_take, rFindings_length]
    decide
  · show ((rSources query sid st).1.map SearchResult.url).length = 3
    have e : (rSources query sid st).1 = search_results query 3 := rfl
    rw [e]
    simp [search_results_length]
  · show (rFindings query sid st).1.length =
      (generate_search_queries query).length * 5
    rw [rFindings_length]
    simp [generate_search_queries]
  · show (rFindings query sid st).1.length = 15
    exact rFindings_length query sid st

/-- The state used in the C2 witness: session "s1" exists and is empty. -/
def stC2 : SystemState := (create_session "s1" initialState).2

/-- Witness for C2 at a concrete state with an existing empty session. -/
theorem research_appends_one_witness :
    ∃ ctx : ResearchContext,
      get_session_history "s1" (research "X" (some "s1") stC2).2 = [] ++ [ctx] ∧
      ctx.findings.length = 5 ∧
      ctx.sources.length = 3 ∧
      (research "X" (some "s1") stC2).1.sources_count =
        (generate_search_queries "X").length * 5 ∧
      (research "X" (some "s1") stC2).1.sources_count = 15 :=
  research_appends_one "X" "s1" stC2 [] (by decide) rfl

-- ==== C5 ====

/-- The per-line loop of `get_context_summary`, re-expressed as a fold over
the index-annotated context list. -/
theorem summaryLines_eq (i : Nat) (l : List ResearchContext) :
    summaryLines i l =
      ((List.enumFrom i l).map
        (fun p => toString p.1 ++ ". " ++ p.2.query ++ ": "
          ++ p.2.synthesis.take 100 ++ "...\n")).foldr (· ++ ·) "" := by
  induction l generalizing i with
  | nil => rfl
  | cons c rest ih => simp [summaryLines, List.enumFrom, ih]

/-- Claim C5: on an empty history `get_context_summary` returns the fixed
sentinel; otherwise it returns a header stating the total context count
followed by one numbered line per context, the lines drawn from at most the
last 3 entries kept in their original chronological order (a suffix of the
history), each line truncating the synthesis to its first 100 characters
followed by an ellipsis marker. -/
theorem get_context_summary_spec (session_id : String) (st : SystemState) :
    (get_session_history session_id st = [] →
        get_context_summary session_id st = "No previous research in this session.") ∧
      (∀ h : List ResearchContext, get_session_history session_id st = h → h ≠ [] →
        get_context_summary session_id st =
            "Previous research in this session (" ++ toString h.length
              ++ " queries):\n"
              ++ ((List.enumFrom 1 (h.drop (h.length - 3))).map
                  (fun p => toString p.1 ++ ". " ++ p.2.query ++ ": "
                    ++ p.2.synthesis.take 100 ++ "...\n")).foldr (· ++ ·) "" ∧
          (h.drop (h.length - 3)).length ≤ 3 ∧
          h.drop (h.length - 3) <:+ h) := by
  constructor
  · intro he
    simp [get_context_summary, he]
  · intro h he hne
    refine ⟨?_, ?_, ⟨h.take (h.length - 3), List.take_append_drop _ _⟩⟩
    · simp [get_context_summary, he, hne, summaryLines_eq]
    · rw [List.length_drop]
      omega

/-- Contexts used in the C5 witness. -/
def ctxA : ResearchContext := ⟨"qa", [], [], "sa", "0"⟩

/-- Second context of the C5 witness. -/
def ctxB : ResearchContext := ⟨"qb", [], [], "sb", "1"⟩

/-- Third context of the C5 witness. -/
def ctxC : ResearchContext := ⟨"qc", [], [], "sc", "2"⟩

/-- Fourth context of the C5 witness. -/
def ctxD : ResearchContext := ⟨"qd", [], [], "sd", "3"⟩

/-- A state whose session "s" holds four contexts (more than the 3-window). -/
def stC5 : SystemState :=
  { initialState with sessions := [("s", [ctxA, ctxB, ctxC, ctxD])] }

/-- Witness for C5 on a 4-entry history: the summary is the count header plus
the lines of the last three contexts, which form a suffix of length 3. -/
theorem get_context_summary_spec_witness :
    get_context_summary "s" stC5 =
        "Previous research in this session ("
          ++ toString ([ctxA, ctxB, ctxC, ctxD] : List ResearchContext).length
          ++ " queries):\n"
          ++ ((List.enumFrom 1 (([ctxA, ctxB, ctxC, ctxD] : List ResearchContext).drop
              (([ctxA, ctxB, ctxC, ctxD] : List ResearchContext).length - 3))).map
              (fun p => toString p.1 ++ ". " ++ p.2.query ++ ": "
                ++ p.2.synthesis.take 100 ++ "...\n")).foldr (· ++ ·) "" ∧
      (([ctxA, ctxB, ctxC, ctxD] : List ResearchContext).drop
          (([ctxA, ctxB, ctxC, ctxD] : List ResearchContext).length - 3)).length ≤ 3 ∧
      ([ctxA, ctxB, ctxC, ctxD] : List ResearchContext).drop
          (([ctxA, ctxB, ctxC, ctxD] : List ResearchContext).length - 3) <:+
        [ctxA, ctxB, ctxC, ctxD] :=
  (get_context_summary_spec "s" stC5).2 [ctxA, ctxB, ctxC, ctxD] rfl (by decide)

-- ==== C6 ====

/-- Claim C6: `conduct_research` queries the provider once per sub-query in
plan order and its findings list is exactly the undeduplicated, unfiltered
concatenation of each sub-query's results formatted as title-colon-snippet,
in sub-query-major, result-minor order: the i-th block of `num_sources`
findings is the formatted result list of the i-th sub-query. -/
theorem conduct_research_order (plan : ResearchPlan) (st : SystemState) :
    (conduct_research plan st).1 =
        plan.search_queries.flatMap
          (fun q => (search_results q plan.num_sources).map
            (fun r => r.title ++ ": " ++ r.snippet)) ∧
      (conduct_research plan st).1.length =
        plan.search_queries.length * plan.num_sources ∧
      ∀ (i : Nat) (hi : i < plan.search_queries.length),
        (((conduct_research plan st).1).drop (i * plan.num_sources)).take
            plan.num_sources =
          (search_results (plan.search_queries.get ⟨i, hi⟩)
              plan.num_sources).map (fun r => r.title ++ ": " ++ r.snippet) := by
  have hfst : (conduct_research plan st).1 =
      plan.search_queries.flatMap
        (fun q => (search_results q plan.num_sources).map
          (fun r => r.title ++ ": " ++ r.snippet)) := by
    show (gatherFindings plan.search_queries plan.num_sources _).1 = _
    exact gatherFindings_fst plan.num_sources plan.search_queries _
  refine ⟨hfst, ?_, ?_⟩
  · rw [hfst]
    exact bind_length_uniform _ plan.num_sources
      (fun q => by simp [search_results_length]) plan.search_queries
  · intro i hi
    rw [hfst]
    exact bind_drop_take _ plan.num_sources
      (fun q => by simp [search_results_length]) plan.search_queries i hi

/-- The two-sub-query plan used in the C6 witness. -/
def planW : ResearchPlan :=
  { query := "q", search_queries := ["a", "b"], num_sources := 2,
    synthesis_required := true, context := "" }

/-- Witness for C6: on a concrete plan with sub-queries [a, b] and 2 results
each, findings[2..4) are exactly the formatted results of sub-query b. -/
theorem conduct_research_order_witness :
    (((conduct_research planW initialState).1).drop (1 * planW.num_sources)).take
        planW.num_sources =
      (search_results (planW.search_queries.get ⟨1, by decide⟩)
          planW.num_sources).map (fun r => r.title ++ ": " ++ r.snippet) :=
  (conduct_research_order planW initialState).2.2 1 (by decide)

-- ==== C3 ====

/-- Claim C3, counterexample: `evaluate_session` does NOT leave the tracer's
event sequence unchanged — already on the fresh state it appends its own
`evaluation_completed` event. -/
theorem evaluate_session_mutates_tracer :
    (evaluate_session initialState "s").2.traces ≠ initialState.traces := by
  decide

/-- Claim C3 (amended): `evaluate_session` leaves the session store and the
long-term memory (and the pattern log) unchanged, but it mutates the tracer:
it appends exactly one `evaluation_completed` trace event holding the
computed metrics. -/
theorem evaluate_session_frame (st : SystemState) (session_id : String) :
    (evaluate_session st session_id).2.sessions = st.sessions ∧
      (evaluate_session st session_id).2.knowledge_base = st.knowledge_base ∧
      (evaluate_session st session_id).2.research_patterns = st.research_patterns ∧
      (evaluate_session st session_id).2.traces =
        st.traces ++ [⟨toString st.clock, "AgentEvaluator", "evaluation_completed",
          metricsDetails (evaluate_session st session_id).1⟩] :=
  ⟨rfl, rfl, rfl, rfl⟩

-- ==== C7 ====

/-- Claim C7: the evaluator's average is the duration sum divided by
`max(total_queries, 1)` (then two-decimal rounded, as the code rounds), where
`total_queries` is the session history length; with an empty history nothing
divides by zero and the reported average equals the reported total time. -/
theorem evaluate_session_avg (st : SystemState) (session_id : String) :
    (evaluate_session st session_id).1.total_queries =
        (get_session_history session_id st).length ∧
      (evaluate_session st session_id).1.avg_time_per_query =
        round2 (rawTotalTime st session_id /
          (max (get_session_history session_id st).length 1 : ℚ)) ∧
      ((get_session_history session_id st).length = 0 →
        (evaluate_session st session_id).1.avg_time_per_query =
          (evaluate_session st session_id).1.total_time_seconds) := by
  refine ⟨rfl, rfl, ?_⟩
  intro h0
  show round2 (rawTotalTime st session_id /
      (max (get_session_history session_id st).length 1 : ℚ)) =
    round2 (rawTotalTime st session_id)
  rw [h0]
  norm_num

/-- Witness for C7: on the fresh state the history of "s" is empty, and the
evaluator's average equals its reported total time. -/
theorem evaluate_session_avg_witness :
    (get_session_history "s" initialState).length = 0 ∧
      (evaluate_session initialState "s").1.avg_time_per_query =
        (evaluate_session initialState "s").1.total_time_seconds :=
  ⟨rfl, (evaluate_session_avg initialState "s").2.2 rfl⟩
